import Mathlib

/-!
Formal model of the KiroGate gateway (a shallow embedding of the Python
sources in `kiro_gateway/`) together with theorems settling the spec claims.

Conventions of the embedding:
* Python dict values relevant to the model cache are embedded as the
  inductive `PyVal` (None, int, dict), with Python truthiness made explicit,
  so that the `x or default` fallback in `cache.py` is modelled faithfully.
* Python `float` percentages are idealised as exact rationals `ℚ`; every
  concrete input used in a theorem is chosen so that the observable integer
  outputs of the float computation and of the rational computation coincide.
* `async` control flow is modelled by explicit state passing: the retry loop
  of `http_client.py` becomes a recursive function over a schedule of
  per-attempt outcomes, and the async generator `BaseStreamHandler.stream`
  becomes a function from an abstract upstream read schedule to the list of
  chunks it yields, plus flags for the raised exception and response closing.
* Collaborator code that is not part of the modelled claims (the tokenizer,
  the AWS event-stream parser, the auth manager) is abstracted into input
  parameters: e.g. the token count of the accumulated text is an arbitrary
  natural number supplied to `calculate_tokens`.
-/

namespace KiroGate

/-! ## A fragment of Python values

Needed to model `cache.py`: `ModelInfoCache.get_max_input_tokens` relies on
Python truthiness (`if model and model.get("tokenLimits")`, and
`... or DEFAULT_MAX_INPUT_TOKENS`). -/

/-- Fragment of Python runtime values: `None`, integers and dicts
(string-keyed), enough for the model-info structures in `cache.py`. -/
inductive PyVal where
  | vNone : PyVal
  | vInt : Int → PyVal
  | vDict : List (String × PyVal) → PyVal

/-- Python truthiness on the embedded fragment: `None` is falsy, an int is
truthy iff nonzero, a dict is truthy iff non-empty. -/
def pyTruthy : PyVal → Bool
  | .vNone => false
  | .vInt n => n != 0
  | .vDict es => !es.isEmpty

/-- Lookup in an embedded dict, as an association list (first match).
Models `d.get(k)` returning `None`-as-absent via `Option`. -/
def dictFind (es : List (String × PyVal)) (k : String) : Option PyVal :=
  (es.find? (fun p => p.1 == k)).map (fun p => p.2)

/-- Models `v.get(k)` on a value statically known to be used as a dict at
the call site (in `cache.py` the receiver is guarded to be a truthy dict).
A non-dict receiver is mapped to `None`; the claims only exercise dict and
absent cases. -/
def pyGet (v : PyVal) (k : String) : PyVal :=
  match v with
  | .vDict es => (dictFind es k).getD .vNone
  | _ => .vNone

/-- Numeric reading of an embedded value. The `maxInputTokens` field of the
Model Info data model is an integer (or null/absent); a non-int is read
as 0, a case the claims never exercise. -/
def pyToInt : PyVal → Int
  | .vInt n => n
  | _ => 0

/-! ## `config.py` constants and the model-name mapping -/

/-- `Settings.default_max_input_tokens` default (config.py line 132). -/
def DEFAULT_MAX_INPUT_TOKENS : Int := 200000

/-- `Settings.max_retries` default (config.py line 119). -/
def MAX_RETRIES : Nat := 3

/-- `MODEL_MAPPING` from config.py lines 240-262: external model name →
Kiro internal id, transcribed in source order (all keys are distinct, so
the association-list reading agrees with the Python dict). -/
def MODEL_MAPPING : List (String × String) :=
  [("claude-opus-4-5", "claude-opus-4.5"),
   ("claude-opus-4-5-20251101", "claude-opus-4.5"),
   ("claude-haiku-4-5", "claude-haiku-4.5"),
   ("claude-haiku-4.5", "claude-haiku-4.5"),
   ("claude-sonnet-4-5", "CLAUDE_SONNET_4_5_20250929_V1_0"),
   ("claude-sonnet-4-5-20250929", "CLAUDE_SONNET_4_5_20250929_V1_0"),
   ("claude-sonnet-4", "CLAUDE_SONNET_4_20250514_V1_0"),
   ("claude-sonnet-4-20250514", "CLAUDE_SONNET_4_20250514_V1_0"),
   ("claude-3-7-sonnet-20250219", "CLAUDE_3_7_SONNET_20250219_V1_0"),
   ("auto", "claude-sonnet-4.5")]

/-- `get_internal_model_id` (config.py lines 300-310):
`MODEL_MAPPING.get(external_model, external_model)`. -/
def get_internal_model_id (external_model : String) : String :=
  ((MODEL_MAPPING.find? (fun p => p.1 == external_model)).map (fun p => p.2)).getD
    external_model

/-! ## `cache.py`: the model-info cache -/

/-- A cached model-info entry: the Python dict for one model. -/
abbrev ModelDict := List (String × PyVal)

/-- The cache contents `self._cache : Dict[str, Dict]`, keyed by model id. -/
abbrev ModelCache := List (String × ModelDict)

/-- Models `self._cache.get(model_id)`. -/
def cacheGet (cache : ModelCache) (modelId : String) : Option ModelDict :=
  (cache.find? (fun p => p.1 == modelId)).map (fun p => p.2)

/-- `ModelInfoCache.get_max_input_tokens` (cache.py lines 180-193):

```
model = self._cache.get(model_id)
if model and model.get("tokenLimits"):
    return model["tokenLimits"].get("maxInputTokens") or DEFAULT_MAX_INPUT_TOKENS
return DEFAULT_MAX_INPUT_TOKENS
``` -/
def get_max_input_tokens (cache : ModelCache) (modelId : String) : Int :=
  match cacheGet cache modelId with
  | some model =>
    let tl := (dictFind model "tokenLimits").getD .vNone
    if pyTruthy (.vDict model) && pyTruthy tl then
      let v := pyGet tl "maxInputTokens"
      if pyTruthy v then pyToInt v else DEFAULT_MAX_INPUT_TOKENS
    else
      DEFAULT_MAX_INPUT_TOKENS
  | none => DEFAULT_MAX_INPUT_TOKENS

/-! ## `metrics.py`: the active-connections gauge -/

/-- The two gauge operations of interest on `PrometheusMetrics`
(metrics.py lines 155-163): `inc_active_connections` and
`dec_active_connections`. -/
inductive ConnOp where
  | inc : ConnOp
  | dec : ConnOp
  deriving DecidableEq

/-- One gauge operation on the current value: `inc` does
`self._active_connections += 1`; `dec` does
`self._active_connections = max(0, self._active_connections - 1)`. -/
def applyConnOp (v : Int) : ConnOp → Int
  | .inc => v + 1
  | .dec => max 0 (v - 1)

/-- The gauge value after a sequence of operations, starting from the
initial value `self._active_connections = 0` (metrics.py line 79). -/
def runConnOps (ops : List ConnOp) : Int :=
  ops.foldl applyConnOp 0

/-! ## `base_stream_handler.py`: token calculation -/

/-- Python `int()` applied to a float/rational: truncation toward zero. -/
def pyIntTrunc (q : ℚ) : Int :=
  if 0 ≤ q then ⌊q⌋ else ⌈q⌉

/-- `BaseStreamHandler._calculate_tokens` (base_stream_handler.py lines
226-267). Abstracted collaborators (all from `tokenizer.py`, outside the
modelled core): `completionTokens` is `count_tokens(self.full_content)`
and `tiktokenPromptTokens` is the sum
`count_message_tokens(...) + count_tools_tokens(...)` used by the fallback
branch. `contextUsagePercentage` is `self.context_usage_percentage`
(`None` when no context-usage event arrived). Returns
`(prompt_tokens, completion_tokens, total_tokens)`.

```
total_tokens_from_api = 0
if self.context_usage_percentage is not None and self.context_usage_percentage > 0:
    max_input_tokens = self.model_cache.get_max_input_tokens(self.model)
    total_tokens_from_api = int((self.context_usage_percentage / 100) * max_input_tokens)
if total_tokens_from_api > 0:
    prompt_tokens = max(0, total_tokens_from_api - completion_tokens)
    total_tokens = total_tokens_from_api
else:
    prompt_tokens = <tiktoken count>
    total_tokens = prompt_tokens + completion_tokens
``` -/
def calculate_tokens (cache : ModelCache) (model : String)
    (completionTokens tiktokenPromptTokens : Nat)
    (contextUsagePercentage : Option ℚ) : Nat × Nat × Nat :=
  let totalTokensFromApi : Int :=
    match contextUsagePercentage with
    | some p =>
      if 0 < p then
        pyIntTrunc (p / 100 * ((get_max_input_tokens cache model : Int) : ℚ))
      else 0
    | none => 0
  if 0 < totalTokensFromApi then
    ((max 0 (totalTokensFromApi - (completionTokens : Int))).toNat,
     completionTokens, totalTokensFromApi.toNat)
  else
    (tiktokenPromptTokens, completionTokens,
     tiktokenPromptTokens + completionTokens)

/-! ## `http_client.py`: the retry client -/

/-- Outcome of one upstream request attempt inside
`KiroHttpClient.request_with_retry`: an HTTP response with a status code, an
`httpx.TimeoutException`, or an `httpx.RequestError`. -/
inductive AttemptOutcome where
  | status : Nat → AttemptOutcome
  | timeoutErr : AttemptOutcome
  | requestErr : AttemptOutcome
  deriving DecidableEq

/-- How `request_with_retry` ends. The two `exhausted` variants mark the
code reaching one of the two `raise HTTPException(...)` statements at
http_client.py lines 230-238 (status literals 504 for stream, 502
otherwise). -/
inductive RetryResult where
  | success : RetryResult
  | returned : Nat → RetryResult
  | exhaustedStream : RetryResult
  | exhaustedNonStream : RetryResult
  deriving DecidableEq

/-- Observable trace of one `request_with_retry` call: how many upstream
requests were issued, how many times `auth_manager.force_refresh()` was
called, the backoff delays slept (in order), and the outcome. -/
structure RetryTrace where
  requests : Nat
  refreshes : Nat
  sleeps : List ℚ
  result : RetryResult
  deriving DecidableEq

/-- The loop body of `request_with_retry` (http_client.py lines 173-238),
by recursion on the remaining attempt budget. `f i` is the outcome of the
i-th attempt (0-based); `attempt` is the loop index (it enters the backoff
formula `base_retry_delay * (2 ** attempt)`); accumulators carry the trace.

Branches, in source order: 200 → return; 403 → `force_refresh`, continue
with no sleep; 429 → sleep, continue; 5xx → sleep, continue; other status
→ return the response; `TimeoutException` → stream: continue with no sleep,
non-stream: sleep, continue; `RequestError` → sleep, continue. -/
def retryAux (f : Nat → AttemptOutcome) (isStream : Bool) (baseDelay : ℚ) :
    Nat → Nat → Nat → Nat → List ℚ → RetryTrace
  | _, 0, reqs, refs, sleeps =>
    ⟨reqs, refs, sleeps.reverse,
     if isStream then .exhaustedStream else .exhaustedNonStream⟩
  | attempt, r + 1, reqs, refs, sleeps =>
    match f attempt with
    | .status 200 => ⟨reqs + 1, refs, sleeps.reverse, .success⟩
    | .status 403 => retryAux f isStream baseDelay (attempt + 1) r (reqs + 1) (refs + 1) sleeps
    | .status 429 =>
      retryAux f isStream baseDelay (attempt + 1) r (reqs + 1) refs
        (baseDelay * 2 ^ attempt :: sleeps)
    | .status c =>
      if 500 ≤ c ∧ c < 600 then
        retryAux f isStream baseDelay (attempt + 1) r (reqs + 1) refs
          (baseDelay * 2 ^ attempt :: sleeps)
      else
        ⟨reqs + 1, refs, sleeps.reverse, .returned c⟩
    | .timeoutErr =>
      if isStream then
        retryAux f isStream baseDelay (attempt + 1) r (reqs + 1) refs sleeps
      else
        retryAux f isStream baseDelay (attempt + 1) r (reqs + 1) refs
          (baseDelay * 2 ^ attempt :: sleeps)
    | .requestErr =>
      retryAux f isStream baseDelay (attempt + 1) r (reqs + 1) refs
        (baseDelay * 2 ^ attempt :: sleeps)

/-- `KiroHttpClient.request_with_retry`: run the loop
`for attempt in range(max_retries)` from an empty trace. -/
def request_with_retry (f : Nat → AttemptOutcome) (maxRetries : Nat)
    (isStream : Bool) (baseDelay : ℚ) : RetryTrace :=
  retryAux f isStream baseDelay 0 maxRetries 0 0 []

/-- The status-code literal appearing in the `raise HTTPException(...)`
statement executed at each exhaustion outcome (http_client.py lines
230-238): 504 for the stream branch, 502 for the non-stream branch. -/
def raiseStatusLiteral : RetryResult → Option Nat
  | .exhaustedStream => some 504
  | .exhaustedNonStream => some 502
  | _ => none

/-- Names bound at module level in `kiro_gateway/http_client.py`,
transcribed from its import statements (lines 26-33) and its module-level
definitions. Python resolves the bare name `HTTPException` used at lines
230 and 235 against exactly these globals (plus builtins, which do not
define `HTTPException`). -/
def httpClientModuleNames : List String :=
  ["asyncio", "Optional", "httpx", "logger", "KiroAuthManager", "settings",
   "GlobalHTTPClientManager", "global_http_client_manager", "KiroHttpClient",
   "close_global_http_client"]

/-! ## `base_stream_handler.py`: the streaming generator

`BaseStreamHandler.stream` (lines 269-345) is an async generator. We model
one run of it as a function of an abstract upstream read schedule:

* the result of `_read_first_chunk_with_timeout` (a first byte chunk, an
  empty response, an `asyncio.TimeoutError` turned into
  `FirstTokenTimeoutError`, or any other exception raised while reading);
* for each subsequent `aiter_bytes` step, either a byte chunk or an
  exception raised at that point of the loop;
* the number of reconciled tool calls collected at upstream EOF
  (`deduplicate_tool_calls(parser.get_tool_calls() + bracket_tool_calls)`,
  abstracted since `parsers.py` is a collaborator);
* whether the post-loop processing (bracket extraction, token counting,
  chunk formatting) raises.

A byte chunk is represented by what matters downstream: the optional
content text returned by `_process_events` for it (`None` when the parsed
events contain no content event; note `if content:` also treats the empty
string as absent). -/

/-- One chunk yielded by `BaseStreamHandler.stream`, classified: a content
chunk carrying its `first_chunk` flag, a tool-call chunk carrying its index,
the final chunk, and the terminator `{"type": "done"}`. -/
inductive StreamChunk where
  | content : Bool → StreamChunk
  | toolCalls : Nat → StreamChunk
  | final : StreamChunk
  | done : StreamChunk
  deriving DecidableEq

/-- Result of `_read_first_chunk_with_timeout` (lines 176-200): a first
byte chunk (with its parsed content), an empty response
(`StopAsyncIteration` → `None`), a first-byte timeout
(`FirstTokenTimeoutError`), or some other exception escaping the read. -/
inductive FirstReadResult where
  | bytes : Option String → FirstReadResult
  | empty : FirstReadResult
  | timeout : FirstReadResult
  | failure : FirstReadResult
  deriving DecidableEq

/-- One step of the `async for chunk in self.response.aiter_bytes()` loop:
a byte chunk (with its parsed content), or an exception raised at this
point of the loop body / iterator. -/
inductive LoopStep where
  | bytes : Option String → LoopStep
  | failure : LoopStep
  deriving DecidableEq

/-- Python truthiness of the `content` value returned by
`_process_events`: `None` and `""` are falsy. -/
def contentTruthy : Option String → Bool
  | none => false
  | some s => s != ""

/-- Outcome of the `async for` loop: the content chunks it yielded and
whether it was aborted by an exception. -/
structure LoopResult where
  emitted : List StreamChunk
  failed : Bool
  deriving DecidableEq

/-- The `async for chunk in self.response.aiter_bytes()` loop (lines
298-308), threading the `first_chunk_sent` flag: a truthy content yields
`_format_content_chunk(content, first_chunk=not first_chunk_sent)` and sets
the flag; an exception aborts the loop. -/
def streamLoop (firstSent : Bool) : List LoopStep → LoopResult
  | [] => ⟨[], false⟩
  | .bytes c :: rest =>
    if contentTruthy c then
      let r := streamLoop true rest
      ⟨.content (!firstSent) :: r.emitted, r.failed⟩
    else
      streamLoop firstSent rest
  | .failure :: _ => ⟨[], true⟩

/-- Outcome of one run of `BaseStreamHandler.stream`: the chunks yielded,
whether `FirstTokenTimeoutError` propagated to the caller (the only
re-raised exception, lines 338-340), and whether the upstream response was
closed (the `finally: await self.response.aclose()`, lines 343-345). -/
structure StreamOutcome where
  emitted : List StreamChunk
  raisedFirstTokenTimeout : Bool
  responseClosed : Bool
  deriving DecidableEq

/-- `BaseStreamHandler.stream` (lines 269-345) as a function of the read
schedule. Control flow mirrors the source: empty response → lone
terminator; first-byte timeout → re-raise; first chunk content → first
content chunk with `first_chunk=True`; then the byte loop; then (when
nothing raised) one tool-call chunk per reconciled call, the final chunk
and the terminator; any exception other than the first-byte timeout is
caught by `except Exception` and ends the generator; the `finally` block
closes the response on every path. -/
def streamRun (first : FirstReadResult) (rest : List LoopStep)
    (nTools : Nat) (postFails : Bool) : StreamOutcome :=
  match first with
  | .timeout => ⟨[], true, true⟩
  | .failure => ⟨[], false, true⟩
  | .empty => ⟨[.done], false, true⟩
  | .bytes c0 =>
    let firstEmits : List StreamChunk :=
      if contentTruthy c0 then [.content true] else []
    let lr := streamLoop (contentTruthy c0) rest
    let emitted : List StreamChunk :=
      if lr.failed ∨ postFails then
        firstEmits ++ lr.emitted
      else
        firstEmits ++ lr.emitted
          ++ (List.range nTools).map StreamChunk.toolCalls
          ++ [.final, .done]
    ⟨emitted, false, true⟩

/-- Phase rank of a chunk: content chunks before tool-call chunks before
the final chunk before the terminator. -/
def chunkRank : StreamChunk → Nat
  | .content _ => 0
  | .toolCalls _ => 1
  | .final => 2
  | .done => 3

/-- The `first_chunk` flags of the content chunks of a sequence, in
order. -/
def contentFlags : List StreamChunk → List Bool
  | [] => []
  | .content f :: rest => f :: contentFlags rest
  | _ :: rest => contentFlags rest

/-- Checks that a flag sequence marks only its head: empty, or `true`
followed by `false`s. -/
def firstFlagOk : List Bool → Bool
  | [] => true
  | b :: bs => b && bs.all (fun x => !x)

/-- Whether the first read timed out (for stating which runs re-raise). -/
def isTimeoutRead : FirstReadResult → Bool
  | .timeout => true
  | _ => false

/-! ## Concrete inputs used by counterexamples and witnesses -/

/-- A cache holding one model whose `tokenLimits.maxInputTokens` is the
integer 0 (a falsy value). -/
def cacheMaxZero : ModelCache :=
  [("model-a", [("tokenLimits", PyVal.vDict [("maxInputTokens", PyVal.vInt 0)])])]

/-- A cache holding one model with a genuine (truthy) token limit. -/
def cacheMax123456 : ModelCache :=
  [("model-b", [("tokenLimits", PyVal.vDict [("maxInputTokens", PyVal.vInt 123456)])])]

/-- A cache holding one model whose `tokenLimits.maxInputTokens` is null. -/
def cacheMaxNull : ModelCache :=
  [("model-n", [("tokenLimits", PyVal.vDict [("maxInputTokens", PyVal.vNone)])])]

/-- A cache holding one model with `maxInputTokens` = 3: small enough that
`int(percent/100 * max_input_tokens)` and `round(...)` differ at
`percent = 90` (2.7 truncates to 2, rounds to 3), and exactly so in float
arithmetic as well as in the rational idealisation. -/
def cacheMax3 : ModelCache :=
  [("model-c", [("tokenLimits", PyVal.vDict [("maxInputTokens", PyVal.vInt 3)])])]

/-- Attempt schedule for the S5 scenario: 403 on the first attempt, 200
afterwards. -/
def sched403then200 : Nat → AttemptOutcome :=
  fun i => if i = 0 then .status 403 else .status 200

/-! ## Helper lemmas -/

/-- A successful dict lookup implies the dict is non-empty. -/
theorem dictFind_some_ne_nil {es : List (String × PyVal)} {k : String}
    {v : PyVal} (h : dictFind es k = some v) : es ≠ [] := by
  cases es with
  | nil => simp [dictFind] at h
  | cons a l => simp

/-- The gauge stays non-negative from any non-negative start. -/
theorem foldl_connOp_nonneg (ops : List ConnOp) :
    ∀ v : Int, 0 ≤ v → 0 ≤ ops.foldl applyConnOp v := by
  induction ops with
  | nil => intro v hv; simpa using hv
  | cons op rest ih =>
    intro v hv
    rw [List.foldl_cons]
    apply ih
    cases op with
    | inc => simp only [applyConnOp]; omega
    | dec => exact le_max_left 0 (v - 1)

/-! ## Claim theorems -/

/-- Claim C10: the active-connections gauge starts at 0 and stays
non-negative under every sequence of `inc_active_connections` /
`dec_active_connections` calls, because the decrement clamps at zero. -/
theorem C10_active_connections_nonneg (ops : List ConnOp) :
    0 ≤ runConnOps ops :=
  foldl_connOp_nonneg ops 0 le_rfl

/-- Claim C7: `get_internal_model_id` maps every key of `MODEL_MAPPING` to
its mapped upstream id and is the identity on every name that is not a key
of the table. -/
theorem C7_model_mapping (key value m : String) :
    ((key, value) ∈ MODEL_MAPPING → get_internal_model_id key = value) ∧
    (m ∉ MODEL_MAPPING.map Prod.fst → get_internal_model_id m = m) := by
  constructor
  · intro h
    fin_cases h <;> rfl
  · intro hm
    unfold get_internal_model_id
    rw [List.find?_eq_none.mpr]
    · rfl
    · intro p hp hbeq
      exact hm (List.mem_map.mpr ⟨p, hp, by simpa using hbeq⟩)

/-- Witness for C7: a mapped name and an unknown name, both via
`C7_model_mapping`. -/
theorem C7_model_mapping_witness :
    get_internal_model_id "claude-sonnet-4" = "CLAUDE_SONNET_4_20250514_V1_0" ∧
    get_internal_model_id "gpt-4" = "gpt-4" :=
  ⟨(C7_model_mapping "claude-sonnet-4" "CLAUDE_SONNET_4_20250514_V1_0" "x").1
      (by decide),
   (C7_model_mapping "x" "x" "gpt-4").2 (by decide)⟩

/-- Claim C6, counterexample: a cached model whose
`tokenLimits.maxInputTokens` value is the integer 0. The claim says the
function returns that value; the code returns the 200,000 default instead
(`... or DEFAULT_MAX_INPUT_TOKENS` discards falsy values). -/
theorem C6_counterexample :
    dictFind [("maxInputTokens", PyVal.vInt 0)] "maxInputTokens"
      = some (PyVal.vInt 0) ∧
    get_max_input_tokens cacheMaxZero "model-a" = 200000 ∧
    (200000 : Int) ≠ 0 :=
  ⟨rfl, rfl, by decide⟩

/-- Claim C6 as amended: for every model id absent from the cache the
default 200,000 is returned, and for a cached model with a *truthy*
(non-null, nonzero) `tokenLimits.maxInputTokens` integer the stored value
is returned. -/
theorem C6_amended (cache : ModelCache) (mid : String) :
    (cacheGet cache mid = none → get_max_input_tokens cache mid = 200000) ∧
    (∀ model tl v, cacheGet cache mid = some model →
      dictFind model "tokenLimits" = some (PyVal.vDict tl) →
      dictFind tl "maxInputTokens" = some (PyVal.vInt v) →
      v ≠ 0 →
      get_max_input_tokens cache mid = v) := by
  constructor
  · intro h
    unfold get_max_input_tokens
    rw [h]
    rfl
  · intro model tl v hc htl hv hvne
    cases model with
    | nil => simp [dictFind] at htl
    | cons m ms =>
      cases tl with
      | nil => simp [dictFind] at hv
      | cons t ts =>
        unfold get_max_input_tokens
        rw [hc]
        simp [htl, hv, pyTruthy, pyGet, pyToInt, hvne]

/-- Witness for C6: the absent case and a truthy stored value, both via
`C6_amended`. -/
theorem C6_amended_witness :
    get_max_input_tokens cacheMax123456 "absent-model" = 200000 ∧
    get_max_input_tokens cacheMax123456 "model-b" = 123456 :=
  ⟨(C6_amended cacheMax123456 "absent-model").1 rfl,
   (C6_amended cacheMax123456 "model-b").2 _ _ 123456 rfl rfl rfl
      (by decide)⟩

/-- Claim C9: `get_max_input_tokens` returns the 200,000 default not only
when the model is absent, but also when the cached model's `tokenLimits`
field is missing, null, or an empty dict, and when its `maxInputTokens`
value is absent, null, or 0 — all falsy values discarded by the `or`
fallback. -/
theorem C9_falsy_fallback (cache : ModelCache) (mid : String) :
    (cacheGet cache mid = none → get_max_input_tokens cache mid = 200000) ∧
    (∀ model, cacheGet cache mid = some model →
      ((dictFind model "tokenLimits" = none →
          get_max_input_tokens cache mid = 200000) ∧
       (dictFind model "tokenLimits" = some PyVal.vNone →
          get_max_input_tokens cache mid = 200000) ∧
       (dictFind model "tokenLimits" = some (PyVal.vDict []) →
          get_max_input_tokens cache mid = 200000) ∧
       (∀ tl, dictFind model "tokenLimits" = some (PyVal.vDict tl) →
          ((dictFind tl "maxInputTokens" = none →
              get_max_input_tokens cache mid = 200000) ∧
           (dictFind tl "maxInputTokens" = some PyVal.vNone →
              get_max_input_tokens cache mid = 200000) ∧
           (dictFind tl "maxInputTokens" = some (PyVal.vInt 0) →
              get_max_input_tokens cache mid = 200000))))) := by
  constructor
  · intro h
    unfold get_max_input_tokens
    rw [h]
    rfl
  · intro model hc
    refine ⟨?_, ?_, ?_, ?_⟩
    · intro h
      unfold get_max_input_tokens
      rw [hc]
      simp [h, pyTruthy, DEFAULT_MAX_INPUT_TOKENS]
    · intro h
      unfold get_max_input_tokens
      rw [hc]
      simp [h, pyTruthy, DEFAULT_MAX_INPUT_TOKENS]
    · intro h
      unfold get_max_input_tokens
      rw [hc]
      simp [h, pyTruthy, DEFAULT_MAX_INPUT_TOKENS]
    · intro tl htl
      refine ⟨?_, ?_, ?_⟩ <;> intro h <;>
        · unfold get_max_input_tokens
          rw [hc]
          simp only [htl, Option.getD_some]
          split
          · simp [pyGet, h, pyToInt, pyTruthy, DEFAULT_MAX_INPUT_TOKENS]
          · simp [DEFAULT_MAX_INPUT_TOKENS]

/-- Witness for C9: a cached model whose `maxInputTokens` is null falls
back to 200,000, via `C9_falsy_fallback`. -/
theorem C9_falsy_fallback_witness :
    get_max_input_tokens cacheMaxNull "model-n" = 200000 :=
  ((((C9_falsy_fallback cacheMaxNull "model-n").2 _ rfl).2.2.2) _ rfl).2.1 rfl

/-- On a schedule of 429 responses the retry loop spends its whole budget:
each of the `remaining` iterations issues one request and backs off, and
the loop ends in the non-stream exhaustion branch with no refresh. -/
theorem retryAux_429 (f : Nat → AttemptOutcome) (d : ℚ) :
    ∀ (remaining attempt reqs refs : Nat) (sleeps : List ℚ),
      (∀ i, i < attempt + remaining → f i = AttemptOutcome.status 429) →
      ((retryAux f false d attempt remaining reqs refs sleeps).requests
          = reqs + remaining ∧
       (retryAux f false d attempt remaining reqs refs sleeps).result
          = RetryResult.exhaustedNonStream ∧
       (retryAux f false d attempt remaining reqs refs sleeps).refreshes
          = refs)
  | 0, attempt, reqs, refs, sleeps, _ => by simp [retryAux]
  | r + 1, attempt, reqs, refs, sleeps, h => by
    have h0 : f attempt = AttemptOutcome.status 429 := h attempt (by omega)
    have ih := retryAux_429 f d r (attempt + 1) (reqs + 1) refs
      (d * 2 ^ attempt :: sleeps) (fun i hi => h i (by omega))
    simp only [retryAux, h0]
    exact ⟨by rw [ih.1]; omega, ih.2.1, ih.2.2⟩

/-- Claim C1, counterexample: with `max_retries = 3` (the default) and a
schedule of only-429 responses — in particular N = max_retries + 1 = 4
synthetic 429s — `request_with_retry` issues exactly 3 upstream requests
before failing, not the claimed max_retries + 1 = 4: the loop is
`for attempt in range(max_retries)`. -/
theorem C1_counterexample :
    (request_with_retry (fun _ => AttemptOutcome.status 429)
        MAX_RETRIES false 1).requests = 3 ∧
    MAX_RETRIES + 1 = 4 ∧ (3 : Nat) ≠ 4 :=
  ⟨rfl, rfl, by decide⟩

/-- Claim C1 as amended: for a request that receives only retryable 429
responses (in particular N = max_retries + 1 synthetic 429s),
`request_with_retry` issues exactly max_retries upstream requests before
failing. -/
theorem C1_retry_budget (f : Nat → AttemptOutcome) (mr : Nat) (d : ℚ)
    (h : ∀ i, i < mr + 1 → f i = AttemptOutcome.status 429) :
    (request_with_retry f mr false d).requests = mr ∧
    (request_with_retry f mr false d).result
      = RetryResult.exhaustedNonStream := by
  have := retryAux_429 f d mr 0 0 0 [] (fun i hi => h i (by omega))
  refine ⟨?_, this.2.1⟩
  show (retryAux f false d 0 mr 0 0 []).requests = mr
  rw [this.1]
  omega

/-- Witness for C1: the default budget of 3 against an all-429 schedule,
via `C1_retry_budget`. -/
theorem C1_retry_budget_witness :
    (request_with_retry (fun _ => AttemptOutcome.status 429)
        MAX_RETRIES false 1).requests = MAX_RETRIES ∧
    (request_with_retry (fun _ => AttemptOutcome.status 429)
        MAX_RETRIES false 1).result = RetryResult.exhaustedNonStream :=
  C1_retry_budget (fun _ => AttemptOutcome.status 429) MAX_RETRIES 1
    (fun _ _ => rfl)

/-- Claim C2 (code bug): at retry exhaustion the code executes
`raise HTTPException(status_code=502, ...)` (non-stream) or
`raise HTTPException(status_code=504, ...)` (stream first-byte deadline
exhausted) — the status literals the claim describes — but the bare name
`HTTPException` is not among the names bound at module level in
`http_client.py` (and builtins do not define it), so in Python the raise
statement itself fails with `NameError` instead of raising an error
carrying status 502/504. -/
theorem C2_exhaustion_unbound_name :
    (request_with_retry (fun _ => AttemptOutcome.status 429)
        MAX_RETRIES false 1).result = RetryResult.exhaustedNonStream ∧
    raiseStatusLiteral RetryResult.exhaustedNonStream = some 502 ∧
    (request_with_retry (fun _ => AttemptOutcome.timeoutErr)
        3 true 1).result = RetryResult.exhaustedStream ∧
    raiseStatusLiteral RetryResult.exhaustedStream = some 504 ∧
    "HTTPException" ∉ httpClientModuleNames :=
  ⟨rfl, rfl, rfl, rfl, by decide⟩

/-- Claim C5: a 403 response triggers a forced credential refresh and an
immediate retry with no backoff sleep; for one 403 followed by 200 the
call succeeds after exactly 2 requests, exactly 1 forced refresh and no
sleeps. The 403 attempt counts against the attempt budget: with a budget
of 1 the same schedule exhausts after the single 403 (having refreshed
once). -/
theorem C5_403_forced_refresh (mr : Nat) (d : ℚ) (h : 2 ≤ mr) :
    request_with_retry sched403then200 mr false d
      = ⟨2, 1, [], RetryResult.success⟩ ∧
    request_with_retry sched403then200 1 false d
      = ⟨1, 1, [], RetryResult.exhaustedNonStream⟩ := by
  obtain ⟨r, rfl⟩ : ∃ r, mr = r + 1 + 1 := ⟨mr - 2, by omega⟩
  refine ⟨?_, rfl⟩
  show retryAux sched403then200 false d 0 (r + 1 + 1) 0 0 [] = _
  simp [retryAux, sched403then200]

/-- Witness for C5: the default budget of 3, via `C5_403_forced_refresh`. -/
theorem C5_403_forced_refresh_witness :
    request_with_retry sched403then200 MAX_RETRIES false 1
      = ⟨2, 1, [], RetryResult.success⟩ ∧
    request_with_retry sched403then200 1 false 1
      = ⟨1, 1, [], RetryResult.exhaustedNonStream⟩ :=
  C5_403_forced_refresh MAX_RETRIES 1 (by decide)

/-- When the context-usage percentage is positive and the truncated
API-derived total is positive, `_calculate_tokens` takes the API branch. -/
theorem calculate_tokens_api_branch (cache : ModelCache) (model : String)
    (c tp : Nat) (p : ℚ) (hp : 0 < p)
    (ht : 0 < pyIntTrunc (p / 100 * (get_max_input_tokens cache model : ℚ))) :
    calculate_tokens cache model c tp (some p) =
      ((max 0 (pyIntTrunc (p / 100 * (get_max_input_tokens cache model : ℚ))
          - (c : Int))).toNat,
       c,
       (pyIntTrunc (p / 100 * (get_max_input_tokens cache model : ℚ))).toNat) := by
  simp only [calculate_tokens]
  rw [if_pos hp, if_pos ht]

/-- Evaluation of the truncated product at the counterexample input:
`int(90/100 * 3)` is 2 (2.7 truncated toward zero). -/
theorem pyIntTrunc_90_pct_of_3 :
    pyIntTrunc ((90 : ℚ) / 100 * (get_max_input_tokens cacheMax3 "model-c" : ℚ))
      = 2 := by
  have h1 : get_max_input_tokens cacheMax3 "model-c" = 3 := rfl
  rw [h1]
  unfold pyIntTrunc
  rw [if_pos (by norm_num)]
  rw [Int.floor_eq_iff]
  norm_num

/-- Claim C3, counterexample: with a resolved `max_input_tokens` of 3 and a
known `context_usage_percentage` of 90, the code computes
`total_tokens = int(90/100 * 3) = 2` (truncation), while the claim's
formula `round(90/100 * 3)` gives 3; the value 2.7 is also what the float
computation produces, so truncation and rounding genuinely disagree here. -/
theorem C3_truncation_counterexample :
    (calculate_tokens cacheMax3 "model-c" 0 0 (some 90)).2.2 = 2 ∧
    round ((90 : ℚ) / 100 * (get_max_input_tokens cacheMax3 "model-c" : ℚ))
      = 3 ∧
    (2 : Nat) ≠ 3 := by
  refine ⟨?_, ?_, by decide⟩
  · rw [calculate_tokens_api_branch cacheMax3 "model-c" 0 0 90 (by norm_num)
      (by rw [pyIntTrunc_90_pct_of_3]; norm_num)]
    show (pyIntTrunc ((90 : ℚ) / 100
        * (get_max_input_tokens cacheMax3 "model-c" : ℚ))).toNat = 2
    rw [pyIntTrunc_90_pct_of_3]
    rfl
  · have h1 : get_max_input_tokens cacheMax3 "model-c" = 3 := rfl
    rw [h1, round_eq]
    rw [Int.floor_eq_iff]
    norm_num

/-- Claim C3 as amended: whenever `context_usage_percentage > 0` is known
and the truncated product `int(percent/100 × max_input_tokens)` is
positive, `total_tokens` is that truncated product (truncation toward
zero, not rounding) and `prompt_tokens = max(0, total − completion)`,
where the limit is resolved through `get_max_input_tokens` on the model
cache. -/
theorem C3_truncated_total (cache : ModelCache) (model : String)
    (c tp : Nat) (p : ℚ) (hp : 0 < p)
    (ht : 0 < pyIntTrunc (p / 100 * (get_max_input_tokens cache model : ℚ))) :
    calculate_tokens cache model c tp (some p) =
      ((max 0 (pyIntTrunc (p / 100 * (get_max_input_tokens cache model : ℚ))
          - (c : Int))).toNat,
       c,
       (pyIntTrunc (p / 100 * (get_max_input_tokens cache model : ℚ))).toNat) :=
  calculate_tokens_api_branch cache model c tp p hp ht

/-- Witness for C3: at percent 90, limit 3 and completion count 1, the
code returns prompt 1, completion 1, total 2, via `C3_truncated_total`. -/
theorem C3_truncated_total_witness :
    calculate_tokens cacheMax3 "model-c" 1 0 (some 90) = (1, 1, 2) := by
  rw [C3_truncated_total cacheMax3 "model-c" 1 0 90 (by norm_num)
    (by rw [pyIntTrunc_90_pct_of_3]; norm_num)]
  rw [pyIntTrunc_90_pct_of_3]
  rfl

/-- Every chunk yielded inside the byte loop is a content chunk. -/
theorem streamLoop_content : ∀ (steps : List LoopStep) (fs : Bool)
    (ch : StreamChunk), ch ∈ (streamLoop fs steps).emitted →
    ∃ b, ch = StreamChunk.content b
  | [], _, ch, h => by simp [streamLoop] at h
  | .bytes c :: rest, fs, ch, h => by
    by_cases hc : contentTruthy c = true
    · simp only [streamLoop, hc, if_true] at h
      rcases List.mem_cons.mp h with h1 | h2
      · exact ⟨!fs, h1⟩
      · exact streamLoop_content rest true ch h2
    · simp only [streamLoop, hc, if_false] at h
      exact streamLoop_content rest fs ch h
  | .failure :: _, _, ch, h => by simp [streamLoop] at h

/-- Once the first content chunk has been sent, every later content chunk
carries `first_chunk = False`. -/
theorem streamLoop_flags_sent : ∀ steps : List LoopStep,
    (contentFlags (streamLoop true steps).emitted).all (fun b => !b) = true
  | [] => rfl
  | .bytes c :: rest => by
    by_cases hc : contentTruthy c = true
    · simp [streamLoop, hc, contentFlags, streamLoop_flags_sent rest]
    · simp only [streamLoop, hc, if_false]
      exact streamLoop_flags_sent rest
  | .failure :: _ => rfl

/-- While no content chunk has been sent yet, the loop marks exactly its
first content chunk as first. -/
theorem streamLoop_flags_unsent : ∀ steps : List LoopStep,
    firstFlagOk (contentFlags (streamLoop false steps).emitted) = true
  | [] => rfl
  | .bytes c :: rest => by
    by_cases hc : contentTruthy c = true
    · simp [streamLoop, hc, contentFlags, firstFlagOk,
        streamLoop_flags_sent rest]
    · simp only [streamLoop, hc, if_false]
      exact streamLoop_flags_unsent rest
  | .failure :: _ => rfl

/-- `contentFlags` distributes over append. -/
theorem contentFlags_append : ∀ a b : List StreamChunk,
    contentFlags (a ++ b) = contentFlags a ++ contentFlags b
  | [], _ => rfl
  | .content f :: rest, b => by
    simp [contentFlags, contentFlags_append rest b]
  | .toolCalls i :: rest, b => by
    simp [contentFlags, contentFlags_append rest b]
  | .final :: rest, b => by
    simp [contentFlags, contentFlags_append rest b]
  | .done :: rest, b => by
    simp [contentFlags, contentFlags_append rest b]

/-- Tool-call chunks contribute no content flags. -/
theorem contentFlags_toolCalls (l : List Nat) :
    contentFlags (l.map StreamChunk.toolCalls) = [] := by
  induction l with
  | nil => rfl
  | cons i rest ih => simpa [contentFlags] using ih

/-- Appending the tool-call block and the final/terminator block leaves the
content flags unchanged. -/
theorem contentFlags_drop_tail (A : List StreamChunk) (n : Nat) :
    contentFlags (A ++ (List.range n).map StreamChunk.toolCalls
      ++ [StreamChunk.final, StreamChunk.done]) = contentFlags A := by
  rw [contentFlags_append, contentFlags_append, contentFlags_toolCalls]
  simp [contentFlags]

/-- A block of chunks of one common rank is internally ordered. -/
theorem pairwise_const_rank {l : List StreamChunk} {k : Nat}
    (h : ∀ ch ∈ l, chunkRank ch = k) :
    l.Pairwise (fun a b => chunkRank a ≤ chunkRank b) := by
  induction l with
  | nil => exact List.Pairwise.nil
  | cons a t ih =>
    refine List.Pairwise.cons (fun b hb => ?_)
      (ih (fun ch hc => h ch (List.mem_cons_of_mem a hc)))
    rw [h a (List.mem_cons_self a t), h b (List.mem_cons_of_mem a hb)]

/-- A content block is ordered. -/
theorem pairwise_content_block {A : List StreamChunk}
    (hA : ∀ ch ∈ A, chunkRank ch = 0) :
    A.Pairwise (fun a b => chunkRank a ≤ chunkRank b) :=
  pairwise_const_rank hA

/-- A content block followed by the tool-call block, the final chunk and
the terminator is ordered by rank. -/
theorem pairwise_full_sequence (A : List StreamChunk) (n : Nat)
    (hA : ∀ ch ∈ A, chunkRank ch = 0) :
    (A ++ (List.range n).map StreamChunk.toolCalls
      ++ [StreamChunk.final, StreamChunk.done]).Pairwise
      (fun a b => chunkRank a ≤ chunkRank b) := by
  have hT : ∀ ch ∈ (List.range n).map StreamChunk.toolCalls,
      chunkRank ch = 1 := by
    intro ch h
    rcases List.mem_map.mp h with ⟨i, _, rfl⟩
    rfl
  refine List.pairwise_append.mpr ⟨List.pairwise_append.mpr
    ⟨pairwise_const_rank hA, pairwise_const_rank hT, ?_⟩, ?_, ?_⟩
  · intro a ha b hb
    rw [hA a ha, hT b hb]
    omega
  · decide
  · intro a ha b hb
    have hb2 : chunkRank b = 2 ∨ chunkRank b = 3 := by
      fin_cases hb
      · left; rfl
      · right; rfl
    have ha01 : chunkRank a = 0 ∨ chunkRank a = 1 := by
      rcases List.mem_append.mp ha with h1 | h2
      · left; exact hA a h1
      · right; exact hT a h2
    omega

/-- Claim C8: `BaseStreamHandler.stream` closes the upstream response on
every exit path, and the only exception it lets escape is the first-byte
timeout (`FirstTokenTimeoutError`); every other exception raised while
consuming the upstream response ends the stream cleanly. -/
theorem C8_exception_handling (first : FirstReadResult)
    (rest : List LoopStep) (nTools : Nat) (postFails : Bool) :
    (streamRun first rest nTools postFails).responseClosed = true ∧
    (streamRun first rest nTools postFails).raisedFirstTokenTimeout
      = isTimeoutRead first := by
  cases first <;> exact ⟨rfl, rfl⟩

/-- Claim C4: in every chunk sequence produced by a run of
`BaseStreamHandler.stream` (including runs truncated by exceptions), all
content chunks precede all tool-call chunks, which precede the final
chunk, which precedes the terminator; and the first content chunk is the
only one marked as first. -/
theorem C4_chunk_order (first : FirstReadResult) (rest : List LoopStep)
    (nTools : Nat) (postFails : Bool) :
    ((streamRun first rest nTools postFails).emitted.Pairwise
      fun a b => chunkRank a ≤ chunkRank b) ∧
    firstFlagOk
      (contentFlags (streamRun first rest nTools postFails).emitted)
      = true := by
  cases first with
  | timeout => exact ⟨List.Pairwise.nil, rfl⟩
  | failure => exact ⟨List.Pairwise.nil, rfl⟩
  | empty => exact ⟨List.pairwise_singleton _ _, rfl⟩
  | bytes c0 =>
    have hAcontent : ∀ ch ∈ (if contentTruthy c0 then [StreamChunk.content true]
        else []) ++ (streamLoop (contentTruthy c0) rest).emitted,
        chunkRank ch = 0 := by
      intro ch hch
      rcases List.mem_append.mp hch with h1 | h2
      · by_cases hc : contentTruthy c0 = true
        · rw [if_pos hc] at h1
          have he : ch = StreamChunk.content true := by simpa using h1
          rw [he]
          rfl
        · rw [if_neg hc] at h1
          exact absurd h1 (List.not_mem_nil ch)
      · obtain ⟨b, rfl⟩ := streamLoop_content rest _ ch h2
        rfl
    have hAflags : firstFlagOk (contentFlags
        ((if contentTruthy c0 then [StreamChunk.content true] else [])
          ++ (streamLoop (contentTruthy c0) rest).emitted)) = true := by
      by_cases hc : contentTruthy c0 = true
      · rw [if_pos hc, hc, contentFlags_append]
        simp only [contentFlags, List.cons_append, List.nil_append,
          firstFlagOk, Bool.true_and]
        exact streamLoop_flags_sent rest
      · rw [if_neg hc, contentFlags_append]
        have hc2 : contentTruthy c0 = false := by
          revert hc; cases contentTruthy c0 <;> simp
        rw [hc2]
        simpa [contentFlags] using streamLoop_flags_unsent rest
    constructor
    · simp only [streamRun]
      by_cases hfp : ((streamLoop (contentTruthy c0) rest).failed = true
          ∨ postFails = true)
      · rw [if_pos hfp]
        exact pairwise_content_block hAcontent
      · rw [if_neg hfp]
        exact pairwise_full_sequence _ nTools hAcontent
    · simp only [streamRun]
      by_cases hfp : ((streamLoop (contentTruthy c0) rest).failed = true
          ∨ postFails = true)
      · rw [if_pos hfp]
        exact hAflags
      · rw [if_neg hfp]
        rw [contentFlags_drop_tail]
        exact hAflags

end KiroGate
